import Mathlib

/-!
Shallow embedding of the technology-stack detector implemented in
`src/validator-python/src/technology_detector.py` (class `TechnologyDetector`),
together with proofs of the behavioural properties stated for it.

Modelling conventions:
* Python numbers are embedded as exact rationals (`ℚ`).
* Python dicts that the code builds and iterates in insertion order are
  embedded as association lists (`List (String × _)`), which preserve
  insertion order exactly as CPython dicts do.
* A filesystem entry is embedded as a `PyPath` carrying the two attributes
  the detector reads: `name` and `suffix` (`Path.name`, `Path.suffix`).
* `Path.match` (shell-style glob matching of a path against a pattern) and
  "does `Path(root).glob(pattern)` yield at least one element" are library
  and filesystem behaviours external to the detector, so they are passed in
  as oracle functions; the detector code is embedded literally around them.
-/

/-- A filesystem path as the detector sees it: `Path.name` is the final
component, `Path.suffix` is the (dotted) extension, possibly empty. -/
structure PyPath where
  name : String
  suffix : String
deriving DecidableEq, Repr

/-- The ASCII case map on characters, as Python `str.lower` acts on the
ASCII file extensions the detector compares. -/
def lowerChar (c : Char) : Char :=
  if 65 ≤ c.toNat ∧ c.toNat ≤ 90 then Char.ofNat (c.toNat + 32) else c

/-- Embedding of Python `str.lower()` on extension strings (ASCII case
map, applied character by character). -/
def lowerString (s : String) : String :=
  String.mk (s.data.map lowerChar)

/-- A technology configuration profile (an entry of `technology_templates`
or the value of `fallback_config`).  Its inner structure (file patterns,
regex patterns, integration points) is carried through detection untouched,
so it is embedded as an opaque tagged value. -/
structure TechConfig where
  tag : String
deriving DecidableEq, Repr

/-- The `detection_methods` portion of the `auto_detection` registry
section: per-method `patterns` dicts (technology id to marker list) and
per-method optional `weight` entries (the code reads them with
`.get('weight', default)`). -/
structure DetectionMethods where
  file_ext_patterns : List (String × List String)
  file_ext_weight : Option ℚ
  config_file_patterns : List (String × List String)
  config_file_weight : Option ℚ
  dir_patterns : List (String × List String)
  dir_weight : Option ℚ
deriving DecidableEq, Repr

/-- The `auto_detection` section of the registry document:
`enabled` flag, optional `confidence_threshold` (read with
`.get('confidence_threshold', 0.7)`) and the detection methods. -/
structure AutoDetection where
  enabled : Bool
  confidence_threshold : Option ℚ
  methods : DetectionMethods
deriving DecidableEq, Repr

/-- The whole loaded registry document (`self.templates` after
`_load_templates`): the `auto_detection` section, the
`technology_templates` catalog and the `fallback_config` profile. -/
structure Templates where
  auto_detection : AutoDetection
  technology_templates : List (String × TechConfig)
  fallback_config : TechConfig
deriving DecidableEq, Repr

/-- Outcome of the `Path(codebase_root).rglob('*')` traversal performed by
`_get_all_files`: either it completes with the full file list, or it raises
after having appended some partially collected files. -/
inductive ScanOutcome where
  | ok (files : List PyPath)
  | failed (partialFiles : List PyPath)
deriving DecidableEq, Repr

/-- Embedding of `_get_all_files`: the `try` block appends files as the
traversal yields them; the `except` clause catches every exception, logs it
and falls through to `return files`, so a failed traversal still returns the
partially collected list. -/
def get_all_files : ScanOutcome → List PyPath
  | ScanOutcome.ok files => files
  | ScanOutcome.failed partialFiles => partialFiles

/-- The number of files whose lowercased suffix is exactly `e` (the
specification-side notion of "frequency of extension `e` in the lowercased
extension frequency table"). -/
def freq (files : List PyPath) (e : String) : Nat :=
  (files.filter (fun f => lowerString f.suffix == e)).length

/-- One step of building the `extension_counts` dict:
`extension_counts[extension] = extension_counts.get(extension, 0) + 1`,
updating in place (CPython dicts keep the key at its original position). -/
def dictIncr : List (String × Nat) → String → List (String × Nat)
  | [], e => [(e, 1)]
  | (k, v) :: rest, e =>
      if k == e then (k, v + 1) :: rest else (k, v) :: dictIncr rest e

/-- Embedding of the first loop of `_detect_by_file_extensions`: the
frequency table of lowercased extensions. -/
def extension_counts (files : List PyPath) : List (String × Nat) :=
  files.foldl (fun acc f => dictIncr acc (lowerString f.suffix)) []

/-- Embedding of `_detect_by_file_extensions`: for each technology, sum the
counts of its configured extensions that are present in the table
(`if ext in extension_counts: score += extension_counts[ext]`). -/
def extScoreNum (counts : List (String × Nat)) (exts : List String) : Nat :=
  exts.foldl (fun s e =>
    match counts.lookup e with
    | some n => s + n
    | none => s) 0

/-- Embedding of `_detect_by_file_extensions`: for each technology, the
raw count of its configured extensions divided by the total file count,
guarding the empty case with score `0.0` (both branches assign the same
key, so the pair is hoisted out of the guard). -/
def detect_by_file_extensions (patterns : List (String × List String))
    (files : List PyPath) : List (String × ℚ) :=
  let counts := extension_counts files
  let total := files.length
  patterns.map (fun p =>
    (p.1, if total > 0 then ((extScoreNum counts p.2 : ℚ) / (total : ℚ)) else 0))

/-- The test of the inner loop of `_detect_by_configuration_files`:
`file_path.name == config_file or file_path.match(config_file)`, with
`Path.match` supplied as an oracle. -/
def fileMatchesMarker (oracle : PyPath → String → Bool) (f : PyPath)
    (m : String) : Bool :=
  f.name == m || oracle f m

/-- The inner `for file_path in files: ... break` loop of
`_detect_by_configuration_files`: the marker counts (once) iff some file
matches it. -/
def marker_found (oracle : PyPath → String → Bool) (files : List PyPath)
    (m : String) : Bool :=
  files.any (fun f => fileMatchesMarker oracle f m)

/-- Embedding of `_detect_by_configuration_files`: for each technology,
count the configured markers for which some file matches (each marker at
most once thanks to the `break`), normalize by the number of configured
markers, score `0.0` when none are configured. -/
def detect_by_configuration_files (oracle : PyPath → String → Bool)
    (patterns : List (String × List String)) (files : List PyPath) :
    List (String × ℚ) :=
  patterns.map (fun p =>
    (p.1, if p.2.length > 0 then
        (((p.2.filter (marker_found oracle files)).length : ℚ) / (p.2.length : ℚ))
      else 0))

/-- In CPython, `Path(codebase_root).glob(pattern)` returns a generator
object, and a generator object is truthy regardless of whether it would
yield any element; so the test `if Path(codebase_root).glob(pattern):` in
`_detect_by_directory_structure` succeeds for every pattern.  The argument
records whether the glob actually has a match; the result ignores it,
exactly as the Python truthiness test does. -/
def globGeneratorTruthy (_hasMatch : Bool) : Bool :=
  true

/-- Embedding of `_detect_by_directory_structure`: for each technology,
for each configured directory pattern, increment the score when the glob
test is truthy (which, per `globGeneratorTruthy`, is always), normalize by
the number of configured patterns, score `0.0` when none are configured.
The oracle `globHasMatch` tells whether a pattern actually matches under
the codebase root. -/
def detect_by_directory_structure (globHasMatch : String → Bool)
    (patterns : List (String × List String)) : List (String × ℚ) :=
  patterns.map (fun p =>
    (p.1, if p.2.length > 0 then
        (((p.2.filter (fun pat =>
            globGeneratorTruthy (globHasMatch pat))).length : ℚ) / (p.2.length : ℚ))
      else 0))

/-- The `detection_results` dict built by `detect_technology_stack`: the
`file_extensions` entry is present only when `detection_config.get
('enabled', True)` holds; the other two methods always run. -/
structure DetectionResults where
  file_extensions : Option (List (String × ℚ))
  configuration_files : List (String × ℚ)
  directory_structure : List (String × ℚ)
deriving DecidableEq, Repr

/-- Python `technology in dict` then `dict[technology]`, contributing `0`
when absent, as `_calculate_confidence_scores` does. -/
def lookupScore (m : List (String × ℚ)) (tech : String) : ℚ :=
  (m.lookup tech).getD 0

/-- Score of `tech` under the `file_extensions` method of a
`detection_results` dict: `0` when the method entry itself is absent
(method disabled) or the technology is absent from its map. -/
def feScore (dr : DetectionResults) (tech : String) : ℚ :=
  match dr.file_extensions with
  | some m => lookupScore m tech
  | none => 0

/-- Score of `tech` under the `configuration_files` method. -/
def cfScore (dr : DetectionResults) (tech : String) : ℚ :=
  lookupScore dr.configuration_files tech

/-- Score of `tech` under the `directory_structure` method. -/
def dsScore (dr : DetectionResults) (tech : String) : ℚ :=
  lookupScore dr.directory_structure tech

/-- One candidate entry produced by `_calculate_confidence_scores`:
technology id, weighted confidence, and the per-method score breakdown
(`detection_results.get(method, {}).get(technology, 0)`). -/
structure CandidateScore where
  technology : String
  confidence : ℚ
  score_file_extensions : ℚ
  score_configuration_files : ℚ
  score_directory_structure : ℚ
deriving DecidableEq, Repr

/-- The effective weight of the `file_extensions` method:
`detection_methods.get('file_extensions', {}).get('weight', 0.3)`. -/
def weight_fe (m : DetectionMethods) : ℚ :=
  m.file_ext_weight.getD (3 / 10)

/-- The effective weight of the `configuration_files` method (default 0.4). -/
def weight_cf (m : DetectionMethods) : ℚ :=
  m.config_file_weight.getD (4 / 10)

/-- The effective weight of the `directory_structure` method (default 0.3). -/
def weight_ds (m : DetectionMethods) : ℚ :=
  m.dir_weight.getD (3 / 10)

/-- Deduplication keeping the first occurrence of every key, threading the
set of keys already seen. -/
def dedupFirstAux (seen : List String) : List String → List String
  | [] => []
  | x :: xs =>
      if seen.contains x then dedupFirstAux seen xs
      else x :: dedupFirstAux (x :: seen) xs

/-- Deduplication keeping the first occurrence of every key. -/
def dedupFirst (l : List String) : List String :=
  dedupFirstAux [] l

/-- The `all_technologies` set of `_calculate_confidence_scores`: the union
of the technology keys of the per-method score maps.  CPython iterates a
`set` in an order that is fixed within one process; the embedding fixes the
deduplicated first-occurrence order over
`file_extensions ++ configuration_files ++ directory_structure`. -/
def allTechnologies (dr : DetectionResults) : List String :=
  dedupFirst ((dr.file_extensions.getD []).map Prod.fst ++
    dr.configuration_files.map Prod.fst ++
    dr.directory_structure.map Prod.fst)

/-- The candidate entry `_calculate_confidence_scores` builds for one
technology: the confidence is the sum over the three methods of
`score * weight`, counting a method or technology missing from
`detection_results` as `0`, together with the per-method breakdown. -/
def mkCandidate (m : DetectionMethods) (dr : DetectionResults)
    (t : String) : CandidateScore :=
  { technology := t
    confidence := feScore dr t * weight_fe m + cfScore dr t * weight_cf m +
      dsScore dr t * weight_ds m
    score_file_extensions := feScore dr t
    score_configuration_files := cfScore dr t
    score_directory_structure := dsScore dr t }

/-- Embedding of `_calculate_confidence_scores`: one candidate per
technology in the union of keys, sorted by confidence, highest first, with
Python list-sort stability (embedded by the stable `List.insertionSort`). -/
def calculate_confidence_scores (m : DetectionMethods)
    (dr : DetectionResults) : List CandidateScore :=
  ((allTechnologies dr).map (mkCandidate m dr)).insertionSort
    (fun a b => b.confidence ≤ a.confidence)

/-- The effective confidence threshold:
`detection_config.get('confidence_threshold', 0.7)`. -/
def thresholdOf (tpl : Templates) : ℚ :=
  tpl.auto_detection.confidence_threshold.getD (7 / 10)

/-- Embedding of `_determine_best_match`: the head candidate when the list
is non-empty and its confidence reaches the threshold (inclusive),
otherwise `None`. -/
def determine_best_match (threshold : ℚ) (cs : List CandidateScore) :
    Option CandidateScore :=
  match cs with
  | [] => none
  | c :: _ => if c.confidence ≥ threshold then some c else none

/-- Embedding of `_get_technology_config`: look the technology up in the
`technology_templates` catalog; when absent, log a warning and substitute
the fallback profile. -/
def get_technology_config (tpl : Templates) (technology : String) :
    TechConfig :=
  match tpl.technology_templates.lookup technology with
  | some c => c
  | none => tpl.fallback_config

/-- The result dict of `detect_technology_stack`. -/
structure DetectionResult where
  detected_technology : String
  confidence : ℚ
  detection_methods : DetectionResults
  configuration : TechConfig
  fallback_used : Bool
deriving DecidableEq, Repr

/-- The `detection_results` dict assembled by `detect_technology_stack`
over a given file list: file-extension scores only when enabled,
configuration-file and directory-structure scores always. -/
def detectionResultsOf (tpl : Templates) (oracle : PyPath → String → Bool)
    (globHasMatch : String → Bool) (files : List PyPath) :
    DetectionResults :=
  { file_extensions :=
      if tpl.auto_detection.enabled then
        some (detect_by_file_extensions
          tpl.auto_detection.methods.file_ext_patterns files)
      else none
    configuration_files := detect_by_configuration_files oracle
      tpl.auto_detection.methods.config_file_patterns files
    directory_structure := detect_by_directory_structure globHasMatch
      tpl.auto_detection.methods.dir_patterns }

/-- The ranked candidate list computed inside `detect_technology_stack`. -/
def candidatesOf (tpl : Templates) (oracle : PyPath → String → Bool)
    (globHasMatch : String → Bool) (scan : ScanOutcome) :
    List CandidateScore :=
  calculate_confidence_scores tpl.auto_detection.methods
    (detectionResultsOf tpl oracle globHasMatch (get_all_files scan))

/-- Embedding of `detect_technology_stack`: collect the files, run the
enabled signal extractors, aggregate confidences, apply the threshold
policy and assemble the result dict, falling back to the generic profile
with confidence `0.0` when no candidate clears the threshold. -/
def detect_technology_stack (tpl : Templates)
    (oracle : PyPath → String → Bool) (globHasMatch : String → Bool)
    (scan : ScanOutcome) : DetectionResult :=
  match determine_best_match (thresholdOf tpl)
      (candidatesOf tpl oracle globHasMatch scan) with
  | some best =>
      { detected_technology := best.technology
        confidence := best.confidence
        detection_methods :=
          detectionResultsOf tpl oracle globHasMatch (get_all_files scan)
        configuration := get_technology_config tpl best.technology
        fallback_used := false }
  | none =>
      { detected_technology := "generic"
        confidence := 0
        detection_methods :=
          detectionResultsOf tpl oracle globHasMatch (get_all_files scan)
        configuration := tpl.fallback_config
        fallback_used := true }

/-- The validation dict produced by `validate_detection`. -/
structure ValidationResult where
  is_valid : Bool
  confidence_level : String
  warnings : List String
  recs : List String
deriving DecidableEq, Repr

/-- Embedding of `validate_detection`: the confidence level ladder
(`high` at `0.8` and above, `medium` at `0.6` and above, otherwise `low`),
then the three warning checks; `is_valid` is flipped to `False` exactly
when `confidence < 0.5`.  The check on configuration files is Python
falsiness of `detection_methods.get('configuration_files')`: absent here
means the empty map. -/
def validate_detection (r : DetectionResult) : ValidationResult :=
  let level : String :=
    if r.confidence ≥ 8 / 10 then "high"
    else if r.confidence ≥ 6 / 10 then "medium"
    else "low"
  let v0 : ValidationResult :=
    { is_valid := true, confidence_level := level, warnings := [], recs := [] }
  let v1 :=
    if r.confidence < 1 / 2 then
      { v0 with
        is_valid := false
        warnings := v0.warnings ++ ["Low confidence in technology detection"]
        recs := v0.recs ++ ["Consider manually specifying the technology stack"] }
    else v0
  let v2 :=
    if r.fallback_used then
      { v1 with
        warnings := v1.warnings ++ ["Using generic fallback configuration"]
        recs := v1.recs ++ ["Technology-specific patterns may not be optimal"] }
    else v1
  if r.detection_methods.configuration_files.isEmpty then
    { v2 with
      warnings := v2.warnings ++ ["No configuration files detected"]
      recs := v2.recs ++ ["Consider adding configuration files for better detection"] }
  else v2

/-- The score of a technology in a configuration-file signal map, read the
way the aggregator reads it (absent technology reads as `0`). -/
def cfgScoreOf (oracle : PyPath → String → Bool)
    (patterns : List (String × List String)) (files : List PyPath)
    (tech : String) : ℚ :=
  ((detect_by_configuration_files oracle patterns files).lookup tech).getD 0

/-! Concrete registry documents, filesystems and results used to exercise
the definitions on explicit inputs. -/

/-- A detection result whose confidence is exactly `0.55`. -/
def result55 : DetectionResult :=
  { detected_technology := "go"
    confidence := 11 / 20
    detection_methods :=
      { file_extensions := none
        configuration_files := [("go", 11 / 20)]
        directory_structure := [] }
    configuration := { tag := "go-profile" }
    fallback_used := false }

/-- A registry whose only signal is the `go` file extension. -/
def tplScanFail : Templates :=
  { auto_detection :=
      { enabled := true
        confidence_threshold := none
        methods :=
          { file_ext_patterns := [("go", [".go"])]
            file_ext_weight := none
            config_file_patterns := []
            config_file_weight := none
            dir_patterns := []
            dir_weight := none } }
    technology_templates := [("go", { tag := "go-profile" })]
    fallback_config := { tag := "generic-profile" } }

/-- A registry where the whole weight is on the `node` configuration-file
marker. -/
def tplMatchNode : Templates :=
  { auto_detection :=
      { enabled := false
        confidence_threshold := none
        methods :=
          { file_ext_patterns := []
            file_ext_weight := none
            config_file_patterns := [("node", ["package.json"])]
            config_file_weight := some 1
            dir_patterns := []
            dir_weight := none } }
    technology_templates := [("node", { tag := "node-profile" })]
    fallback_config := { tag := "generic-profile" } }

/-- The candidate `tplMatchNode` produces when `package.json` is present. -/
def cNode : CandidateScore :=
  { technology := "node"
    confidence := 1
    score_file_extensions := 0
    score_configuration_files := 1
    score_directory_structure := 0 }

/-- Detection-method weights `(2, -1, 0)`: they sum to `1` but one of them
is negative. -/
def mNeg : DetectionMethods :=
  { file_ext_patterns := []
    file_ext_weight := some 2
    config_file_patterns := []
    config_file_weight := some (-1)
    dir_patterns := []
    dir_weight := some 0 }

/-- Per-method score maps whose every entry lies in `[0,1]`. -/
def drNeg : DetectionResults :=
  { file_extensions := some [("go", 1)]
    configuration_files := []
    directory_structure := [] }

/-- Detection methods with every weight left to its default. -/
def mDef : DetectionMethods :=
  { file_ext_patterns := [("go", [".go"])]
    file_ext_weight := none
    config_file_patterns := []
    config_file_weight := none
    dir_patterns := []
    dir_weight := none }

/-- A score map giving `go` a file-extension score of `1/2`. -/
def drHalf : DetectionResults :=
  { file_extensions := some [("go", 1 / 2)]
    configuration_files := []
    directory_structure := [] }

/-- The candidate the aggregator builds from `mDef` and `drHalf`. -/
def cGoHalf : CandidateScore :=
  { technology := "go"
    confidence := 3 / 20
    score_file_extensions := 1 / 2
    score_configuration_files := 0
    score_directory_structure := 0 }

/-- Ten files, six of which have extension `.go`. -/
def files10 : List PyPath :=
  [⟨"a.go", ".go"⟩, ⟨"b.go", ".go"⟩, ⟨"c.go", ".go"⟩, ⟨"d.go", ".go"⟩,
   ⟨"e.go", ".go"⟩, ⟨"f.go", ".go"⟩, ⟨"g.txt", ".txt"⟩, ⟨"h.md", ".md"⟩,
   ⟨"i.json", ".json"⟩, ⟨"Makefile", ""⟩]

/-- A registry whose whole weight is on a directory pattern of a
technology (`mystery`) that is absent from the template catalog. -/
def tplMystery : Templates :=
  { auto_detection :=
      { enabled := false
        confidence_threshold := none
        methods :=
          { file_ext_patterns := []
            file_ext_weight := none
            config_file_patterns := []
            config_file_weight := some 0
            dir_patterns := [("mystery", ["src"])]
            dir_weight := some 1 } }
    technology_templates := [("node", { tag := "node-profile" })]
    fallback_config := { tag := "generic-profile" } }

/-- The candidate `tplMystery` produces. -/
def cMystery : CandidateScore :=
  { technology := "mystery"
    confidence := 1
    score_file_extensions := 0
    score_configuration_files := 0
    score_directory_structure := 1 }

/-! Helper lemmas about the association-list operations of the embedding. -/

/-- Looking a key up in a map whose values were rewritten pointwise is the
pointwise rewrite of the original lookup. -/
theorem lookup_map_pair {β : Type} (h : List String → β)
    (l : List (String × List String)) (k : String) :
    (l.map (fun p => (p.1, h p.2))).lookup k = (l.lookup k).map h := by
  induction l with
  | nil => rfl
  | cons a t ih =>
      simp only [List.map_cons, List.lookup]
      cases hk : k == a.1 <;> simp [ih]

/-- The cons unfolding of association-list lookup, in `if` form. -/
theorem lookup_cons_eq {β : Type} (a : String × β) (t : List (String × β))
    (k : String) :
    List.lookup k (a :: t) = if k = a.1 then some a.2 else List.lookup k t := by
  obtain ⟨a1, a2⟩ := a
  rw [List.lookup_cons]
  by_cases h : k = a1
  · simp [h]
  · have hb : (k == a1) = false := beq_eq_false_iff_ne.mpr h
    simp [h, hb]

/-- A successful lookup returns a value stored in the list. -/
theorem lookup_eq_some_mem {β : Type} (l : List (String × β)) (k : String)
    (v : β) (h : l.lookup k = some v) : ∃ k2, (k2, v) ∈ l := by
  induction l with
  | nil => simp [List.lookup] at h
  | cons a t ih =>
      rw [lookup_cons_eq] at h
      by_cases hk : k = a.1
      · rw [if_pos hk] at h
        refine ⟨a.1, ?_⟩
        obtain ⟨a1, a2⟩ := a
        obtain rfl : a2 = v := by simpa using h
        exact List.mem_cons_self _ _
      · rw [if_neg hk] at h
        obtain ⟨k2, hk2⟩ := ih h
        exact ⟨k2, List.mem_cons_of_mem _ hk2⟩

/-- The in-place update `dictIncr` bumps exactly the count of the given
key and leaves every other lookup unchanged. -/
theorem lookup_dictIncr (acc : List (String × Nat)) (e k : String) :
    (dictIncr acc e).lookup k =
      if k = e then some ((acc.lookup k).getD 0 + 1) else acc.lookup k := by
  induction acc with
  | nil =>
      by_cases h : k = e
      · simp [dictIncr, lookup_cons_eq, h]
      · simp [dictIncr, lookup_cons_eq, h]
  | cons a t ih =>
      obtain ⟨a1, a2⟩ := a
      by_cases hae : a1 = e
      · by_cases hk : k = a1
        · simp [dictIncr, hae, lookup_cons_eq, hk]
        · have hke : ¬ k = e := fun hh => hk (hh.trans hae.symm)
          simp [dictIncr, hae, lookup_cons_eq, hk, hke]
      · by_cases hk : k = a1
        · have hke : ¬ k = e := fun hh => hae ((hk.symm.trans hh))
          simp [dictIncr, hae, lookup_cons_eq, hk, hke]
        · simp [dictIncr, hae, lookup_cons_eq, hk, ih]

/-- Counting one more file bumps the frequency of its lowercased suffix. -/
theorem freq_cons (f : PyPath) (fs : List PyPath) (e : String) :
    freq (f :: fs) e = (if lowerString f.suffix = e then 1 else 0) + freq fs e := by
  by_cases h : lowerString f.suffix = e
  · simp [freq, List.filter_cons, h]
    omega
  · simp [freq, List.filter_cons, h]

/-- The frequency table built by the fold of `_detect_by_file_extensions`
counts exactly the files with the given lowercased suffix. -/
theorem lookup_foldl_counts (e : String) (fs : List PyPath) :
    ∀ acc : List (String × Nat),
      ((fs.foldl (fun a f => dictIncr a (lowerString f.suffix)) acc).lookup e).getD 0 =
        (acc.lookup e).getD 0 + freq fs e := by
  induction fs with
  | nil => intro acc; simp [freq]
  | cons f t ih =>
      intro acc
      simp only [List.foldl_cons]
      rw [ih, lookup_dictIncr, freq_cons]
      by_cases h : e = lowerString f.suffix
      · simp [h]
        omega
      · have h2 : ¬ lowerString f.suffix = e := fun hh => h hh.symm
        simp [h, h2]

/-- Correctness of the extension frequency table. -/
theorem lookup_extension_counts (files : List PyPath) (e : String) :
    ((extension_counts files).lookup e).getD 0 = freq files e := by
  unfold extension_counts
  rw [lookup_foldl_counts]
  simp [List.lookup]

/-- The score fold of `_detect_by_file_extensions` adds up the table
frequencies of the configured extensions. -/
theorem extScoreNum_eq_sum (files : List PyPath) (exts : List String) :
    extScoreNum (extension_counts files) exts = (exts.map (freq files)).sum := by
  suffices hgen : ∀ (l : List String) (s : Nat),
      l.foldl (fun s e =>
        match (extension_counts files).lookup e with
        | some n => s + n
        | none => s) s = s + (l.map (freq files)).sum by
    simpa [extScoreNum] using hgen exts 0
  intro l
  induction l with
  | nil => intro s; simp
  | cons e t ih =>
      intro s
      have hstep :
          (match (extension_counts files).lookup e with
            | some n => s + n
            | none => s) = s + freq files e := by
        cases hl : (extension_counts files).lookup e with
        | none =>
            have := lookup_extension_counts files e
            rw [hl] at this
            simp [← this]
        | some n =>
            have := lookup_extension_counts files e
            rw [hl] at this
            simp [← this]
      rw [List.map_cons, List.sum_cons, List.foldl_cons]
      show List.foldl _ (match (extension_counts files).lookup e with
        | some n => s + n
        | none => s) t = _
      rw [hstep, ih (s + freq files e)]
      omega

/-- Filtering with a weaker predicate keeps at least as many elements. -/
theorem length_filter_le_of_imp {α : Type} (p q : α → Bool) (l : List α)
    (h : ∀ a, p a = true → q a = true) :
    (l.filter p).length ≤ (l.filter q).length := by
  induction l with
  | nil => simp
  | cons a t ih =>
      cases hp : p a with
      | true =>
          have hq := h a hp
          simp [List.filter, hp, hq]
          omega
      | false =>
          cases hq : q a with
          | true =>
              simp [List.filter, hp, hq]
              omega
          | false => simpa [List.filter, hp, hq] using ih

/-- Membership in the candidate list means being the candidate of one of
the technologies in the key union. -/
theorem mem_calculate_confidence_scores (m : DetectionMethods)
    (dr : DetectionResults) (c : CandidateScore)
    (hc : c ∈ calculate_confidence_scores m dr) :
    ∃ t ∈ allTechnologies dr, c = mkCandidate m dr t := by
  unfold calculate_confidence_scores at hc
  rw [List.mem_insertionSort] at hc
  obtain ⟨t, ht, rfl⟩ := List.mem_map.mp hc
  exact ⟨t, ht, rfl⟩

/-- A score read from a map whose entries all lie in `[0,1]` lies in
`[0,1]` (an absent technology reads as `0`). -/
theorem lookupScore_bounds (m : List (String × ℚ)) (tech : String)
    (h : ∀ p ∈ m, 0 ≤ p.2 ∧ p.2 ≤ 1) :
    0 ≤ lookupScore m tech ∧ lookupScore m tech ≤ 1 := by
  unfold lookupScore
  cases hm : m.lookup tech with
  | none => norm_num
  | some v =>
      obtain ⟨k2, hk2⟩ := lookup_eq_some_mem m tech v hm
      simpa using h (k2, v) hk2

/-- The file-extension score under a `detection_results` dict lies in
`[0,1]` whenever every stored entry does. -/
theorem feScore_bounds (dr : DetectionResults) (tech : String)
    (h : ∀ p ∈ dr.file_extensions.getD [], 0 ≤ p.2 ∧ p.2 ≤ 1) :
    0 ≤ feScore dr tech ∧ feScore dr tech ≤ 1 := by
  cases hfe : dr.file_extensions with
  | none => simp [feScore, hfe]
  | some m =>
      rw [hfe] at h
      simpa [feScore, hfe] using lookupScore_bounds m tech (by simpa using h)

/-- The configuration-file score of a technology with configured markers,
in code terms: markers found among the files over markers configured. -/
theorem config_lookup_eq (oracle : PyPath → String → Bool)
    (patterns : List (String × List String)) (files : List PyPath)
    (tech : String) (markers : List String)
    (h : patterns.lookup tech = some markers) :
    (detect_by_configuration_files oracle patterns files).lookup tech =
      some (if markers.length > 0
        then ((markers.filter (marker_found oracle files)).length : ℚ) /
          (markers.length : ℚ)
        else 0) := by
  unfold detect_by_configuration_files
  rw [lookup_map_pair (fun ms => if ms.length > 0
    then ((ms.filter (marker_found oracle files)).length : ℚ) / (ms.length : ℚ)
    else 0) patterns tech, h]
  rfl

/-- A marker found among `files` is still found when a file is appended. -/
theorem marker_found_append (oracle : PyPath → String → Bool)
    (files : List PyPath) (f : PyPath) (m : String)
    (h : marker_found oracle files m = true) :
    marker_found oracle (files ++ [f]) m = true := by
  rw [marker_found] at h ⊢
  rw [List.any_append]
  simp [h]

/-- The boolean existence loop of `_detect_by_configuration_files` agrees
with the specification-side existential. -/
theorem marker_found_eq_decide (oracle : PyPath → String → Bool)
    (files : List PyPath) (m : String) :
    marker_found oracle files m =
      decide (∃ f ∈ files, f.name = m ∨ oracle f m = true) := by
  by_cases hex : ∃ f ∈ files, f.name = m ∨ oracle f m = true
  · have h1 : marker_found oracle files m = true := by
      rw [marker_found, List.any_eq_true]
      obtain ⟨f, hf, hor⟩ := hex
      refine ⟨f, hf, ?_⟩
      rw [fileMatchesMarker, Bool.or_eq_true]
      rcases hor with h1 | h2
      · exact Or.inl (beq_iff_eq.mpr h1)
      · exact Or.inr h2
    rw [h1, decide_eq_true hex]
  · have h1 : marker_found oracle files m = false := by
      rw [marker_found]
      rw [List.any_eq_false]
      intro f hf hab
      have hab2 : f.name = m ∨ oracle f m = true := by
        simpa [fileMatchesMarker] using hab
      rcases hab2 with h1 | h2
      · exact hex ⟨f, hf, Or.inl h1⟩
      · exact hex ⟨f, hf, Or.inr h2⟩
    rw [h1, decide_eq_false hex]

/-- Unfolding of `detect_technology_stack` when the ranked candidate list
is non-empty and its head clears the threshold. -/
theorem detect_eq_of_head_ge (tpl : Templates)
    (oracle : PyPath → String → Bool) (glob : String → Bool)
    (scan : ScanOutcome) (c : CandidateScore) (rest : List CandidateScore)
    (hc : candidatesOf tpl oracle glob scan = c :: rest)
    (hthr : thresholdOf tpl ≤ c.confidence) :
    detect_technology_stack tpl oracle glob scan =
      { detected_technology := c.technology
        confidence := c.confidence
        detection_methods :=
          detectionResultsOf tpl oracle glob (get_all_files scan)
        configuration := get_technology_config tpl c.technology
        fallback_used := false } := by
  unfold detect_technology_stack
  rw [hc]
  simp [determine_best_match, hthr]

/-- Unfolding of `detect_technology_stack` when the head candidate misses
the threshold. -/
theorem detect_eq_fallback_of_head_lt (tpl : Templates)
    (oracle : PyPath → String → Bool) (glob : String → Bool)
    (scan : ScanOutcome) (c : CandidateScore) (rest : List CandidateScore)
    (hc : candidatesOf tpl oracle glob scan = c :: rest)
    (hthr : ¬ thresholdOf tpl ≤ c.confidence) :
    detect_technology_stack tpl oracle glob scan =
      { detected_technology := "generic"
        confidence := 0
        detection_methods :=
          detectionResultsOf tpl oracle glob (get_all_files scan)
        configuration := tpl.fallback_config
        fallback_used := true } := by
  unfold detect_technology_stack
  rw [hc]
  simp [determine_best_match, hthr]

/-- Unfolding of `detect_technology_stack` when there is no candidate. -/
theorem detect_eq_fallback_of_nil (tpl : Templates)
    (oracle : PyPath → String → Bool) (glob : String → Bool)
    (scan : ScanOutcome)
    (hc : candidatesOf tpl oracle glob scan = []) :
    detect_technology_stack tpl oracle glob scan =
      { detected_technology := "generic"
        confidence := 0
        detection_methods :=
          detectionResultsOf tpl oracle glob (get_all_files scan)
        configuration := tpl.fallback_config
        fallback_used := true } := by
  unfold detect_technology_stack
  rw [hc]
  simp [determine_best_match]

/-! The claims. -/

/-- C1: the directory-structure signal is claimed to score a pattern only
when its glob actually matches something.  The code instead tests the
truthiness of the generator object returned by `glob`, which is always
truthy, so even with a glob oracle that matches nothing the sole configured
pattern of `go` counts and the score is `1.0` instead of the claimed
`0/1 = 0`. -/
theorem C1_dir_structure_truthiness_bug :
    detect_by_directory_structure (fun _ => false) [("go", ["cmd/server"])] =
      [("go", 1)] ∧
    globGeneratorTruthy false = true := by
  constructor
  · norm_num [detect_by_directory_structure, globGeneratorTruthy,
      List.filter_cons]
  · rfl

/-- C2 (counterexample): a traversal that raises after collecting
`main.go` does not abort detection; `_get_all_files` swallows the
exception and detection aggregates over the partially collected list,
returning an ordinary fallback result whose file-extension signal was
computed from the partial file. -/
theorem C2_counterexample :
    detect_technology_stack tplScanFail (fun _ _ => false) (fun _ => false)
        (ScanOutcome.failed [⟨"main.go", ".go"⟩]) =
      { detected_technology := "generic"
        confidence := 0
        detection_methods :=
          { file_extensions := some [("go", 1)]
            configuration_files := []
            directory_structure := [] }
        configuration := { tag := "generic-profile" }
        fallback_used := true } := by
  norm_num +decide [detect_technology_stack, candidatesOf, detectionResultsOf,
    get_all_files, tplScanFail, detect_by_file_extensions, extension_counts,
    extScoreNum, dictIncr, lowerString, lowerChar,
    detect_by_configuration_files, detect_by_directory_structure,
    calculate_confidence_scores, allTechnologies, dedupFirst, dedupFirstAux,
    mkCandidate, feScore, cfScore, dsScore, lookupScore, weight_fe, weight_cf,
    weight_ds, thresholdOf, determine_best_match, get_technology_config,
    List.insertionSort, List.orderedInsert, List.lookup]

/-- C2 (amended): when the filesystem traversal raises, `_get_all_files`
catches the exception and returns the partially collected file list, and
`detect_technology_stack` proceeds over that partial list exactly as it
would over a successful scan yielding the same files; no error propagates
and aggregation does run over the partial list. -/
theorem C2_amended (tpl : Templates) (oracle : PyPath → String → Bool)
    (glob : String → Bool) (partialFiles : List PyPath) :
    get_all_files (ScanOutcome.failed partialFiles) = partialFiles ∧
    detect_technology_stack tpl oracle glob (ScanOutcome.failed partialFiles) =
      detect_technology_stack tpl oracle glob (ScanOutcome.ok partialFiles) :=
  ⟨rfl, rfl⟩

/-- C3 (counterexample): on a result with confidence exactly `0.55` the
validator reports `confidence_level = "low"` but keeps `is_valid = true`,
because the invalidation gate fires only below `0.5`; the claim that
`is_valid = false` at `0.55` is wrong. -/
theorem C3_counterexample :
    result55.confidence = 11 / 20 ∧
    (validate_detection result55).confidence_level = "low" ∧
    (validate_detection result55).is_valid = true := by
  refine ⟨rfl, ?_⟩
  simp only [validate_detection, result55]
  norm_num [apply_ite ValidationResult.confidence_level,
    apply_ite ValidationResult.is_valid]

/-- C3 (amended): for every detection result with confidence exactly
`0.55`, `validate_detection` returns `confidence_level = "low"` and
`is_valid = true` (the invalidation gate is `confidence < 0.5`, which
`0.55` does not trigger). -/
theorem C3_validate_055 (r : DetectionResult) (h : r.confidence = 11 / 20) :
    (validate_detection r).confidence_level = "low" ∧
    (validate_detection r).is_valid = true := by
  simp only [validate_detection, h]
  norm_num [apply_ite ValidationResult.confidence_level,
    apply_ite ValidationResult.is_valid]

/-- C3 (witness): the amended statement applied to the concrete
`result55`. -/
theorem C3_validate_055_witness :
    (validate_detection result55).confidence_level = "low" ∧
    (validate_detection result55).is_valid = true :=
  C3_validate_055 result55 rfl

/-- C9: detection is deterministic: two calls of
`detect_technology_stack` on the same registry, the same match and glob
oracles and equal filesystem snapshots return results that agree on every
field of the `DetectionResult`. -/
theorem C9_detect_deterministic (tpl : Templates)
    (oracle : PyPath → String → Bool) (glob : String → Bool)
    (scan1 scan2 : ScanOutcome) (h : scan1 = scan2) :
    (detect_technology_stack tpl oracle glob scan1).detected_technology =
      (detect_technology_stack tpl oracle glob scan2).detected_technology ∧
    (detect_technology_stack tpl oracle glob scan1).confidence =
      (detect_technology_stack tpl oracle glob scan2).confidence ∧
    (detect_technology_stack tpl oracle glob scan1).detection_methods =
      (detect_technology_stack tpl oracle glob scan2).detection_methods ∧
    (detect_technology_stack tpl oracle glob scan1).configuration =
      (detect_technology_stack tpl oracle glob scan2).configuration ∧
    (detect_technology_stack tpl oracle glob scan1).fallback_used =
      (detect_technology_stack tpl oracle glob scan2).fallback_used := by
  subst h
  exact ⟨rfl, rfl, rfl, rfl, rfl⟩

/-- C9 (witness): determinism applied at a concrete registry and
snapshot. -/
theorem C9_detect_deterministic_witness :
    (detect_technology_stack tplScanFail (fun _ _ => false) (fun _ => false)
        (ScanOutcome.ok [])).detected_technology =
      (detect_technology_stack tplScanFail (fun _ _ => false) (fun _ => false)
        (ScanOutcome.ok [])).detected_technology ∧
    (detect_technology_stack tplScanFail (fun _ _ => false) (fun _ => false)
        (ScanOutcome.ok [])).confidence =
      (detect_technology_stack tplScanFail (fun _ _ => false) (fun _ => false)
        (ScanOutcome.ok [])).confidence ∧
    (detect_technology_stack tplScanFail (fun _ _ => false) (fun _ => false)
        (ScanOutcome.ok [])).detection_methods =
      (detect_technology_stack tplScanFail (fun _ _ => false) (fun _ => false)
        (ScanOutcome.ok [])).detection_methods ∧
    (detect_technology_stack tplScanFail (fun _ _ => false) (fun _ => false)
        (ScanOutcome.ok [])).configuration =
      (detect_technology_stack tplScanFail (fun _ _ => false) (fun _ => false)
        (ScanOutcome.ok [])).configuration ∧
    (detect_technology_stack tplScanFail (fun _ _ => false) (fun _ => false)
        (ScanOutcome.ok [])).fallback_used =
      (detect_technology_stack tplScanFail (fun _ _ => false) (fun _ => false)
        (ScanOutcome.ok [])).fallback_used :=
  C9_detect_deterministic tplScanFail (fun _ _ => false) (fun _ => false)
    (ScanOutcome.ok []) (ScanOutcome.ok []) rfl

/-- C4: if the ranked candidate list is non-empty and its head reaches the
configured threshold (inclusive), the head technology is selected with its
confidence and `fallback_used = false`; otherwise — head below threshold or
no candidate at all — the result is the generic fallback with confidence
`0.0`, the fallback configuration and `fallback_used = true`. -/
theorem C4_threshold_decision (tpl : Templates)
    (oracle : PyPath → String → Bool) (glob : String → Bool)
    (scan : ScanOutcome) :
    (∀ c rest, candidatesOf tpl oracle glob scan = c :: rest →
      (thresholdOf tpl ≤ c.confidence →
        detect_technology_stack tpl oracle glob scan =
          { detected_technology := c.technology
            confidence := c.confidence
            detection_methods :=
              detectionResultsOf tpl oracle glob (get_all_files scan)
            configuration := get_technology_config tpl c.technology
            fallback_used := false }) ∧
      (¬ thresholdOf tpl ≤ c.confidence →
        detect_technology_stack tpl oracle glob scan =
          { detected_technology := "generic"
            confidence := 0
            detection_methods :=
              detectionResultsOf tpl oracle glob (get_all_files scan)
            configuration := tpl.fallback_config
            fallback_used := true })) ∧
    (candidatesOf tpl oracle glob scan = [] →
      detect_technology_stack tpl oracle glob scan =
        { detected_technology := "generic"
          confidence := 0
          detection_methods :=
            detectionResultsOf tpl oracle glob (get_all_files scan)
          configuration := tpl.fallback_config
          fallback_used := true }) := by
  refine ⟨fun c rest hc => ⟨fun hthr => ?_, fun hthr => ?_⟩, fun hc => ?_⟩
  · exact detect_eq_of_head_ge tpl oracle glob scan c rest hc hthr
  · exact detect_eq_fallback_of_head_lt tpl oracle glob scan c rest hc hthr
  · exact detect_eq_fallback_of_nil tpl oracle glob scan hc

/-- C4 (witness): with the whole weight on the `node` marker and
`package.json` present, the head candidate has confidence `1 ≥ 0.7` and is
selected. -/
theorem C4_threshold_decision_witness :
    detect_technology_stack tplMatchNode (fun _ _ => false) (fun _ => false)
        (ScanOutcome.ok [⟨"package.json", ".json"⟩]) =
      { detected_technology := cNode.technology
        confidence := cNode.confidence
        detection_methods :=
          detectionResultsOf tplMatchNode (fun _ _ => false) (fun _ => false)
            (get_all_files (ScanOutcome.ok [⟨"package.json", ".json"⟩]))
        configuration := get_technology_config tplMatchNode cNode.technology
        fallback_used := false } := by
  have hcand : candidatesOf tplMatchNode (fun _ _ => false) (fun _ => false)
      (ScanOutcome.ok [⟨"package.json", ".json"⟩]) = [cNode] := by
    norm_num +decide [candidatesOf, detectionResultsOf, get_all_files,
      tplMatchNode, detect_by_file_extensions, extension_counts, extScoreNum,
      dictIncr, lowerString, lowerChar, detect_by_configuration_files,
      marker_found, fileMatchesMarker, detect_by_directory_structure,
      calculate_confidence_scores, allTechnologies, dedupFirst, dedupFirstAux,
      mkCandidate, feScore, cfScore, dsScore, lookupScore, weight_fe,
      weight_cf, weight_ds, List.insertionSort, List.orderedInsert,
      List.lookup, cNode]
  exact ((C4_threshold_decision tplMatchNode (fun _ _ => false)
      (fun _ => false) (ScanOutcome.ok [⟨"package.json", ".json"⟩])).1 cNode []
      hcand).1 (by norm_num [thresholdOf, tplMatchNode, cNode])

/-- C10: when the head candidate clears the threshold but its technology id
is absent from the `technology_templates` catalog, the fallback profile is
silently substituted as the configuration while the result still reports
`fallback_used = false` and the matched technology id, so the substitution
is not visible at the result's interface. -/
theorem C10_missing_template_conceals_fallback (tpl : Templates)
    (oracle : PyPath → String → Bool) (glob : String → Bool)
    (scan : ScanOutcome) (c : CandidateScore) (rest : List CandidateScore)
    (hc : candidatesOf tpl oracle glob scan = c :: rest)
    (hthr : thresholdOf tpl ≤ c.confidence)
    (habs : tpl.technology_templates.lookup c.technology = none) :
    (detect_technology_stack tpl oracle glob scan).configuration =
      tpl.fallback_config ∧
    (detect_technology_stack tpl oracle glob scan).fallback_used = false ∧
    (detect_technology_stack tpl oracle glob scan).detected_technology =
      c.technology := by
  rw [detect_eq_of_head_ge tpl oracle glob scan c rest hc hthr]
  refine ⟨?_, rfl, rfl⟩
  simp [get_technology_config, habs]

/-- C10 (witness): the registry `tplMystery` matches technology `mystery`
with confidence `1`, but `mystery` has no catalog entry: the result carries
the fallback profile while claiming `fallback_used = false`. -/
theorem C10_missing_template_conceals_fallback_witness :
    (detect_technology_stack tplMystery (fun _ _ => false) (fun _ => false)
        (ScanOutcome.ok [])).configuration = tplMystery.fallback_config ∧
    (detect_technology_stack tplMystery (fun _ _ => false) (fun _ => false)
        (ScanOutcome.ok [])).fallback_used = false ∧
    (detect_technology_stack tplMystery (fun _ _ => false) (fun _ => false)
        (ScanOutcome.ok [])).detected_technology = cMystery.technology := by
  have hcand : candidatesOf tplMystery (fun _ _ => false) (fun _ => false)
      (ScanOutcome.ok []) = [cMystery] := by
    norm_num +decide [candidatesOf, detectionResultsOf, get_all_files,
      tplMystery, detect_by_file_extensions, extension_counts, extScoreNum,
      dictIncr, lowerString, lowerChar, detect_by_configuration_files,
      marker_found, fileMatchesMarker, detect_by_directory_structure,
      globGeneratorTruthy, calculate_confidence_scores, allTechnologies,
      dedupFirst, dedupFirstAux, mkCandidate, feScore, cfScore, dsScore,
      lookupScore, weight_fe, weight_cf, weight_ds, List.insertionSort,
      List.orderedInsert, List.lookup, cMystery]
  exact C10_missing_template_conceals_fallback tplMystery (fun _ _ => false)
    (fun _ => false) (ScanOutcome.ok []) cMystery [] hcand
    (by norm_num [thresholdOf, tplMystery, cMystery])
    (by norm_num +decide [tplMystery, cMystery, List.lookup])

/-- C5 (counterexample): with weights `(2, -1, 0)` — which sum to `1` — and
per-method score maps whose every stored entry is `1` or `0` (all within
`[0,1]`, as the sole candidate's per-method breakdown `1, 0, 0` shows), the
aggregated confidence is `2`, outside `[0,1]`: weight nonnegativity is
needed, summing to `1` alone is not enough. -/
theorem C5_counterexample :
    weight_fe mNeg + weight_cf mNeg + weight_ds mNeg = 1 ∧
    calculate_confidence_scores mNeg drNeg =
      [{ technology := "go", confidence := 2, score_file_extensions := 1,
         score_configuration_files := 0, score_directory_structure := 0 }] ∧
    ¬ ((2 : ℚ) ≤ 1) := by
  refine ⟨by norm_num [weight_fe, weight_cf, weight_ds, mNeg], ?_, by norm_num⟩
  norm_num +decide [calculate_confidence_scores, allTechnologies, dedupFirst,
    dedupFirstAux, mkCandidate, feScore, cfScore, dsScore, lookupScore,
    weight_fe, weight_cf, weight_ds, mNeg, drNeg, List.insertionSort,
    List.orderedInsert, List.lookup]

/-- C5 (amended): every candidate's confidence is, unconditionally, the
weighted sum over the three methods of that technology's scores, with a
method or technology missing from the score maps contributing `0` (the
weights need not be normalized for this); and whenever additionally every
stored per-method score lies in `[0,1]`, the weights are nonnegative and
the weights sum to `1`, the confidence lies in `[0,1]`. -/
theorem C5_weighted_confidence (m : DetectionMethods) (dr : DetectionResults)
    (c : CandidateScore) (hc : c ∈ calculate_confidence_scores m dr) :
    c.confidence =
      feScore dr c.technology * weight_fe m +
        cfScore dr c.technology * weight_cf m +
        dsScore dr c.technology * weight_ds m ∧
    ((∀ p ∈ dr.file_extensions.getD [], 0 ≤ p.2 ∧ p.2 ≤ 1) →
      (∀ p ∈ dr.configuration_files, 0 ≤ p.2 ∧ p.2 ≤ 1) →
      (∀ p ∈ dr.directory_structure, 0 ≤ p.2 ∧ p.2 ≤ 1) →
      0 ≤ weight_fe m → 0 ≤ weight_cf m → 0 ≤ weight_ds m →
      weight_fe m + weight_cf m + weight_ds m = 1 →
      0 ≤ c.confidence ∧ c.confidence ≤ 1) := by
  obtain ⟨t, ht, rfl⟩ := mem_calculate_confidence_scores m dr c hc
  refine ⟨rfl, fun hfe hcf hds hwfe hwcf hwds hsum => ?_⟩
  have h1 := feScore_bounds dr t hfe
  have h2 : 0 ≤ cfScore dr t ∧ cfScore dr t ≤ 1 :=
    lookupScore_bounds dr.configuration_files t hcf
  have h3 : 0 ≤ dsScore dr t ∧ dsScore dr t ≤ 1 :=
    lookupScore_bounds dr.directory_structure t hds
  constructor
  · simp only [mkCandidate]
    nlinarith [mul_nonneg h1.1 hwfe, mul_nonneg h2.1 hwcf,
      mul_nonneg h3.1 hwds]
  · simp only [mkCandidate]
    nlinarith [mul_le_mul_of_nonneg_right h1.2 hwfe,
      mul_le_mul_of_nonneg_right h2.2 hwcf,
      mul_le_mul_of_nonneg_right h3.2 hwds]

/-- C5 (witness): the amended statement at the default weights
`(0.3, 0.4, 0.3)` and a map giving `go` a file-extension score of `1/2`:
the equality holds outright and the bound hypotheses, discharged
concretely, give `3/20 ∈ [0,1]`. -/
theorem C5_weighted_confidence_witness :
    (cGoHalf.confidence =
      feScore drHalf cGoHalf.technology * weight_fe mDef +
        cfScore drHalf cGoHalf.technology * weight_cf mDef +
        dsScore drHalf cGoHalf.technology * weight_ds mDef) ∧
    (0 ≤ cGoHalf.confidence ∧ cGoHalf.confidence ≤ 1) := by
  have hc : cGoHalf ∈ calculate_confidence_scores mDef drHalf := by
    have h : calculate_confidence_scores mDef drHalf = [cGoHalf] := by
      norm_num +decide [calculate_confidence_scores, allTechnologies,
        dedupFirst, dedupFirstAux, mkCandidate, feScore, cfScore, dsScore,
        lookupScore, weight_fe, weight_cf, weight_ds, mDef, drHalf,
        List.insertionSort, List.orderedInsert, List.lookup, cGoHalf]
    rw [h]
    exact List.mem_singleton.mpr rfl
  have h := C5_weighted_confidence mDef drHalf cGoHalf hc
  refine ⟨h.1, h.2 ?_ ?_ ?_ ?_ ?_ ?_ ?_⟩
  · intro p hp
    simp only [drHalf, Option.getD_some, List.mem_singleton] at hp
    rw [hp]
    norm_num
  · intro p hp
    simp [drHalf] at hp
  · intro p hp
    simp [drHalf] at hp
  · norm_num [weight_fe, mDef]
  · norm_num [weight_cf, mDef]
  · norm_num [weight_ds, mDef]
  · norm_num [weight_fe, weight_cf, weight_ds, mDef]

/-- C6: the file-extension score of a technology with configured extension
list `exts` is the sum of the lowercased-suffix frequencies of those
extensions divided by the total file count, and `0.0` on an empty file
listing. -/
theorem C6_file_extension_score (patterns : List (String × List String))
    (files : List PyPath) (tech : String) (exts : List String)
    (h : patterns.lookup tech = some exts) :
    (detect_by_file_extensions patterns files).lookup tech =
      some (if 0 < files.length
        then (((exts.map (freq files)).sum : ℚ) / (files.length : ℚ))
        else 0) := by
  have hmap := lookup_map_pair (fun l =>
    if files.length > 0
    then ((extScoreNum (extension_counts files) l : ℚ) / (files.length : ℚ))
    else 0) patterns tech
  simp only [detect_by_file_extensions]
  rw [hmap, h]
  simp only [Option.map_some']
  rw [extScoreNum_eq_sum]

/-- C6 (witness): ten files of which six have extension `.go`, with the
catalog mapping `go` to `[.go]`, score `6/10 = 3/5 = 0.6`. -/
theorem C6_file_extension_score_witness :
    (detect_by_file_extensions [("go", [".go"])] files10).lookup "go" =
      some (3 / 5) := by
  have h := C6_file_extension_score [("go", [".go"])] files10 "go" [".go"]
    (by decide)
  rw [h]
  have h6 : ([".go"].map (freq files10)).sum = 6 := by decide
  rw [h6]
  norm_num [files10]

/-- C7: the configuration-file score of a technology with configured
marker list `markers` is the number of markers some file matches — each
marker counted at most once — divided by the number of markers, and `0.0`
when no markers are configured. -/
theorem C7_config_file_score (oracle : PyPath → String → Bool)
    (patterns : List (String × List String)) (files : List PyPath)
    (tech : String) (markers : List String)
    (h : patterns.lookup tech = some markers) :
    (detect_by_configuration_files oracle patterns files).lookup tech =
      some (if 0 < markers.length
        then (((markers.filter (fun m =>
            decide (∃ f ∈ files, f.name = m ∨ oracle f m = true))).length : ℚ) /
          (markers.length : ℚ))
        else 0) := by
  rw [config_lookup_eq oracle patterns files tech markers h]
  congr 1
  have hpred : markers.filter (marker_found oracle files) =
      markers.filter (fun m =>
        decide (∃ f ∈ files, f.name = m ∨ oracle f m = true)) := by
    apply List.filter_congr
    intro m _
    exact marker_found_eq_decide oracle files m
  rw [hpred]

/-- C7 (witness): two markers configured for `node`, only `package.json`
present, score `1/2`. -/
theorem C7_config_file_score_witness :
    (detect_by_configuration_files (fun _ _ => false)
        [("node", ["package.json", "tsconfig.json"])]
        [⟨"package.json", ".json"⟩]).lookup "node" = some (1 / 2) := by
  have h := C7_config_file_score (fun _ _ => false)
    [("node", ["package.json", "tsconfig.json"])] [⟨"package.json", ".json"⟩]
    "node" ["package.json", "tsconfig.json"] (by decide)
  rw [h]
  have hf : (["package.json", "tsconfig.json"].filter (fun m =>
      decide (∃ f ∈ [(⟨"package.json", ".json"⟩ : PyPath)],
        f.name = m ∨ (fun _ _ => false : PyPath → String → Bool) f m
          = true))).length = 1 := by decide
  rw [hf]
  norm_num

/-- C8: appending a file that matches one of the technology's markers
never decreases that technology's configuration-file score. -/
theorem C8_config_score_monotone (oracle : PyPath → String → Bool)
    (patterns : List (String × List String)) (files : List PyPath)
    (f : PyPath) (tech : String) (markers : List String)
    (h : patterns.lookup tech = some markers)
    (_hf : ∃ m ∈ markers, fileMatchesMarker oracle f m = true) :
    cfgScoreOf oracle patterns files tech ≤
      cfgScoreOf oracle patterns (files ++ [f]) tech := by
  unfold cfgScoreOf
  rw [config_lookup_eq oracle patterns files tech markers h,
    config_lookup_eq oracle patterns (files ++ [f]) tech markers h]
  simp only [Option.getD_some]
  by_cases hlen : markers.length > 0
  · rw [if_pos hlen, if_pos hlen]
    have hpos : (0 : ℚ) < (markers.length : ℚ) := by exact_mod_cast hlen
    rw [div_le_div_iff_of_pos_right hpos]
    exact_mod_cast length_filter_le_of_imp (marker_found oracle files)
      (marker_found oracle (files ++ [f])) markers
      (fun m hm => marker_found_append oracle files f m hm)
  · rw [if_neg hlen, if_neg hlen]

/-- C8 (witness): adding `package.json` to an empty listing raises the
`node` score from `0` to `1/2`; in particular it does not decrease. -/
theorem C8_config_score_monotone_witness :
    cfgScoreOf (fun _ _ => false)
        [("node", ["package.json", "tsconfig.json"])] [] "node" ≤
      cfgScoreOf (fun _ _ => false)
        [("node", ["package.json", "tsconfig.json"])]
        ([] ++ [⟨"package.json", ".json"⟩]) "node" :=
  C8_config_score_monotone (fun _ _ => false)
    [("node", ["package.json", "tsconfig.json"])] []
    ⟨"package.json", ".json"⟩ "node" ["package.json", "tsconfig.json"]
    (by decide) (by decide)
